import Mathlib

/-!
Shallow embedding of the KAG retirement-project backend (Django/DRF) and
verification of the frozen specification claims.

The embedding translates the relevant source files:
  * `backend/pastors/models.py`, `backend/pastors/serializers.py`,
    `backend/pastors/views.py`
  * `backend/districts/models.py`, `backend/districts/serializers.py`,
    `backend/districts/views.py`
  * `backend/sections/models.py`, `backend/sections/views.py`
  * `backend/churches/models.py`

Modelling conventions:
  * Database tables are Lean lists of rows; a row structure mirrors the
    Django model's fields.  `AutoField` primary keys are `Nat`s handed out
    by a `nextId` counter in the database state.
  * Timestamps (`created_at`) are `Int` seconds; `timedelta(days=30)` is
    `30 * 86400` seconds.
  * Request payload fields that may be absent are `Option`s; a JSON body
    field that should hold a list is a `BodyField` (absent / wrong type /
    a list).
  * Handlers return a response structure (HTTP status plus payload pieces)
    together with the resulting database state, so "no state change" is
    expressible.
-/

namespace KAG

/-- A calendar date, as Python's `datetime.date` (year, month, day). -/
structure Date where
  year : Int
  month : Nat
  day : Nat
deriving DecidableEq, Repr

/-- Python tuple comparison `(a.month, a.day) < (b.month, b.day)`:
lexicographic order on the (month, day) pair. -/
def mdBefore (a b : Date) : Bool :=
  a.month < b.month || (a.month == b.month && a.day < b.day)

/-- `pastors/models.py` choices `GENDER_CHOICES`. -/
def GENDER_CHOICES : List String := ["Male", "Female"]

/-- `pastors/models.py` choices `RANK_CHOICES`. -/
def RANK_CHOICES : List String := ["ArchBishop", "Bishop", "Presbyter", "Reverend", "Pastor"]

/-- `pastors/models.py` choices `STATUS_CHOICES`. -/
def STATUS_CHOICES : List String := ["active", "suspended", "retired", "deceased"]

/-- Row of the `Pastor` model (`pastors/models.py`).  `national_id` and
`start_of_service` are nullable; there is no stored display identifier. -/
structure Pastor where
  id : Nat
  full_name : String
  gender : String
  pastor_rank : String
  national_id : Option String
  date_of_birth : Date
  phone_number : String
  start_of_service : Option Date
  status : String
  created_at : Int
deriving DecidableEq, Repr

/-- Python `f"{n:03d}"` for a non-negative integer: decimal digits,
zero-padded on the left to a minimum width of 3. -/
def pad3 (n : Nat) : String :=
  let s := toString n
  if s.data.length < 3 then String.mk (List.replicate (3 - s.data.length) '0') ++ s else s

/-- `Pastor.pastor_id` property: `f"PAS{self.id:03d}"`, computed on read. -/
def Pastor.pastor_id (p : Pastor) : String :=
  "PAS" ++ pad3 p.id

/-- Row of the `District` model (`districts/models.py`): `name` carries a
`unique=True` constraint. -/
structure District where
  id : Nat
  name : String
  created_at : Int
deriving DecidableEq, Repr

/-- `District.district_id` property: `f"DIS{self.id:03d}"`, computed on read. -/
def District.district_id (d : District) : String :=
  "DIS" ++ pad3 d.id

/-- Row of the `Section` model (`sections/models.py`): `district` is a
foreign key with `on_delete=CASCADE`. -/
structure Section where
  id : Nat
  district : Nat
  name : String
  created_at : Int
deriving DecidableEq, Repr

/-- Row of the `Church` model (`churches/models.py`): the foreign key field
is called `section` in the source (a Lean keyword, hence `section_fk`),
with `on_delete=CASCADE`. -/
structure Church where
  id : Nat
  section_fk : Nat
  church_name : String
  location : String
deriving DecidableEq, Repr

/-- Row of the `ChurchRole` model (`churches/models.py`). -/
structure ChurchRole where
  id : Nat
  role_name : String
deriving DecidableEq, Repr

/-- Row of the `ChurchPastor` join model (`churches/models.py`): all three
foreign keys have `on_delete=CASCADE`. -/
structure ChurchPastor where
  id : Nat
  church : Nat
  pastor : Nat
  role : Nat
deriving DecidableEq, Repr

/-! ### Pastor summary action (`pastors/views.py`, `summary`) -/

/-- Whole-year difference as computed in `PastorViewSet.summary`:
`today.year - d.year - ((today.month, today.day) < (d.month, d.day))`,
where the boolean is coerced to 0/1 by Python integer arithmetic. -/
def computeAge (today d : Date) : Int :=
  today.year - d.year - (if mdBefore today d then 1 else 0)

/-- Payload of the `summary` response (serialized pastor plus the two
computed fields). -/
structure PastorSummary where
  pastor : Pastor
  age : Int
  years_of_service : Option Int
deriving DecidableEq, Repr

/-- `PastorViewSet.summary`: age always computed from `date_of_birth`;
`years_of_service` stays `None` unless `start_of_service` is set. -/
def pastorSummary (today : Date) (p : Pastor) : PastorSummary :=
  { pastor := p
    age := computeAge today p.date_of_birth
    years_of_service := p.start_of_service.map (fun s => computeAge today s) }

/-! ### Pastor list filtering (`pastors/views.py`, `get_queryset`) -/

/-- Query parameters read by `PastorViewSet.get_queryset`. -/
structure PastorQueryParams where
  rank : Option String := none
  status : Option String := none
  gender : Option String := none
deriving DecidableEq, Repr

/-- One conditional `queryset.filter(field=value)` step: applied only when
the parameter is present. -/
def applyOptFilter (key : Pastor → String) (v : Option String) (q : List Pastor) : List Pastor :=
  match v with
  | none => q
  | some s => q.filter (fun p => key p == s)

/-- `PastorViewSet.get_queryset`: successive `.filter` calls for the
`rank`, `status` and `gender` query parameters, in source order. -/
def pastorsGetQueryset (params : PastorQueryParams) (rows : List Pastor) : List Pastor :=
  let q := rows
  let q := applyOptFilter (fun p => p.pastor_rank) params.rank q
  let q := applyOptFilter (fun p => p.status) params.status q
  let q := applyOptFilter (fun p => p.gender) params.gender q
  q

/-- The unfiltered `list` action: the queryset with no query parameters,
presented in the viewset's default ordering `['full_name']`. -/
def pastorsList (rows : List Pastor) : List Pastor :=
  (pastorsGetQueryset {} rows).mergeSort (fun a b => decide (a.full_name ≤ b.full_name))

/-! ### Serializer validation (`pastors/serializers.py`, `districts/serializers.py`)

`ModelSerializer` validation derived from the model fields: required
fields must be present and non-blank, choice fields must take a listed
value, `phone_number` must match `^\+2547[0-9]{8}$`, `CharField`
lengths are bounded by `max_length`, and the unique `District.name`
carries a `UniqueValidator` against the stored rows. -/

/-- The regular expression `^\+2547[0-9]{8}$` from `pastors/models.py`. -/
def phoneValid (s : String) : Bool :=
  match s.data with
  | '+' :: '2' :: '5' :: '4' :: '7' :: rest => rest.length == 8 && rest.all Char.isDigit
  | _ => false

/-- A required `CharField`: present, non-blank, within `max_length`. -/
def requiredString (maxLen : Nat) (v : Option String) : Bool :=
  match v with
  | none => false
  | some s => !s.data.isEmpty && decide (s.data.length ≤ maxLen)

/-- A required choice field: present with a value from the choice list. -/
def choiceValid (choices : List String) (v : Option String) : Bool :=
  match v with
  | none => false
  | some s => choices.contains s

/-- Wire payload for one pastor, as submitted to create / bulk_create.
Absent JSON keys are `none`. -/
structure PastorInput where
  full_name : Option String := none
  gender : Option String := none
  pastor_rank : Option String := none
  national_id : Option String := none
  date_of_birth : Option Date := none
  phone_number : Option String := none
  start_of_service : Option Date := none
  status : Option String := none
deriving DecidableEq, Repr

/-- `PastorSerializer` validation of one item: the list of field names
carrying errors (the keys of the DRF per-item error dict; `[]` means the
item is valid).  `national_id` and `start_of_service` are optional;
`status` has a default and is only checked when present. -/
def validatePastorItem (it : PastorInput) : List String :=
  (if requiredString 150 it.full_name then [] else ["full_name"]) ++
  (if choiceValid GENDER_CHOICES it.gender then [] else ["gender"]) ++
  (if choiceValid RANK_CHOICES it.pastor_rank then [] else ["pastor_rank"]) ++
  (match it.national_id with
   | none => []
   | some s => if decide (s.data.length ≤ 30) then [] else ["national_id"]) ++
  (if it.date_of_birth.isSome then [] else ["date_of_birth"]) ++
  (match it.phone_number with
   | none => ["phone_number"]
   | some s => if phoneValid s then [] else ["phone_number"]) ++
  (match it.status with
   | none => []
   | some s => if STATUS_CHOICES.contains s then [] else ["status"])

/-- Materialize a validated payload as a stored row (the `getD` defaults
are never reached on a payload that passed validation). -/
def pastorFromInput (nid : Nat) (now : Int) (it : PastorInput) : Pastor :=
  { id := nid
    full_name := it.full_name.getD ""
    gender := it.gender.getD ""
    pastor_rank := it.pastor_rank.getD ""
    national_id := it.national_id
    date_of_birth := it.date_of_birth.getD ⟨1970, 1, 1⟩
    phone_number := it.phone_number.getD ""
    start_of_service := it.start_of_service
    status := it.status.getD "active"
    created_at := now }

/-- The pastors table plus the `AutoField` counter. -/
structure PastorDb where
  rows : List Pastor
  nextId : Nat
deriving DecidableEq, Repr

/-- A JSON body field expected to hold a list: absent (`request.data.get`
then yields the default `[]`), present with a non-list value, or a list. -/
inductive BodyField (α : Type) where
  | missing : BodyField α
  | notList : BodyField α
  | items : List α → BodyField α
deriving DecidableEq, Repr

/-- Response of the create / bulk_create handlers: HTTP status, optional
top-level `error` message, optional per-item validation errors
(`serializer.errors`, one entry per submitted item), and the created
representations (`serializer.data`). -/
structure BulkResp (α : Type) where
  status : Nat
  error : Option String
  itemErrors : Option (List (List String))
  data : List α
deriving DecidableEq, Repr

/-- Sequential creation with `AutoField` ids, as `serializer.save()` on a
`many=True` serializer inserts the rows in order. -/
def assignPastorIds (start : Nat) (now : Int) : List PastorInput → List Pastor
  | [] => []
  | it :: rest => pastorFromInput start now it :: assignPastorIds (start + 1) now rest

/-- `PastorViewSet.bulk_create` (`pastors/views.py` lines 290-319): reject
a missing / non-list / empty `pastors` field with 400; otherwise run
`serializer.is_valid()` over every item, and only if all items validate
call `serializer.save()` and answer 201 with the data.  Note: the source
contains no batch-size bound. -/
def pastorsBulkCreate (body : BodyField PastorInput) (now : Int) (db : PastorDb) :
    BulkResp Pastor × PastorDb :=
  match body with
  | .missing => (⟨400, some "pastors field must be a non-empty list", none, []⟩, db)
  | .notList => (⟨400, some "pastors field must be a non-empty list", none, []⟩, db)
  | .items its =>
    if its.isEmpty then
      (⟨400, some "pastors field must be a non-empty list", none, []⟩, db)
    else
      let errs := its.map validatePastorItem
      if errs.all List.isEmpty then
        let created := assignPastorIds db.nextId now its
        (⟨201, none, none, created⟩, ⟨db.rows ++ created, db.nextId + its.length⟩)
      else
        (⟨400, none, some errs, []⟩, db)

/-- Wire payload for one district. -/
structure DistrictInput where
  name : Option String := none
deriving DecidableEq, Repr

/-- `DistrictSerializer` validation of one item against the stored rows:
`name` is required, non-blank, at most 100 characters, and — through the
`UniqueValidator` generated for `unique=True` — must not equal the name of
any stored district. -/
def validateDistrictItem (existing : List District) (it : DistrictInput) : List String :=
  match it.name with
  | none => ["name"]
  | some s =>
    if s.data.isEmpty then ["name"]
    else if decide (100 < s.data.length) then ["name"]
    else if existing.any (fun d => d.name == s) then ["name"]
    else []

/-- Materialize a validated district payload as a stored row. -/
def districtFromInput (nid : Nat) (now : Int) (it : DistrictInput) : District :=
  { id := nid, name := it.name.getD "", created_at := now }

/-- The districts table plus the `AutoField` counter. -/
structure DistrictDb where
  rows : List District
  nextId : Nat
deriving DecidableEq, Repr

/-- Sequential creation with `AutoField` ids for districts. -/
def assignDistrictIds (start : Nat) (now : Int) : List DistrictInput → List District
  | [] => []
  | it :: rest => districtFromInput start now it :: assignDistrictIds (start + 1) now rest

/-- `MAX_BULK_CREATE` in `DistrictViewSet.bulk_create`. -/
def MAX_BULK_CREATE : Nat := 10

/-- `DistrictViewSet.bulk_create` (`districts/views.py` lines 109-152):
reject a missing / non-list / empty `districts` field with 400; reject
more than `MAX_BULK_CREATE` items with 400 and a message naming the limit
and the actual count; then `serializer.is_valid(raise_exception=True)`
(per-item errors with 400 on failure); then `serializer.save()` inside
`transaction.atomic()`.  The `UniqueValidator` checks each item against
the stored rows only, so a batch whose items repeat a fresh name passes
validation and raises `IntegrityError` on the second insert; the
transaction rolls back fully and the handler answers 400 with the
duplicate-name message. -/
def districtsBulkCreate (body : BodyField DistrictInput) (now : Int) (db : DistrictDb) :
    BulkResp District × DistrictDb :=
  match body with
  | .missing => (⟨400, some "districts field must be a non-empty list", none, []⟩, db)
  | .notList => (⟨400, some "districts field must be a non-empty list", none, []⟩, db)
  | .items its =>
    if its.isEmpty then
      (⟨400, some "districts field must be a non-empty list", none, []⟩, db)
    else if decide (MAX_BULK_CREATE < its.length) then
      (⟨400,
        some s!"Cannot create more than {MAX_BULK_CREATE} districts at once. Provided: {its.length}",
        none, []⟩, db)
    else
      let errs := its.map (validateDistrictItem db.rows)
      if errs.all List.isEmpty then
        let names := its.map (fun it => it.name.getD "")
        if names.dedup.length == names.length then
          let created := assignDistrictIds db.nextId now its
          (⟨201, none, none, created⟩, ⟨db.rows ++ created, db.nextId + its.length⟩)
        else
          (⟨400, some "Duplicate district name or database constraint violation", none, []⟩, db)
      else
        (⟨400, none, some errs, []⟩, db)

/-- The standard single-record `create` on districts
(`ModelViewSet.create`): validate against the stored rows, then either
insert and answer 201, or answer 400 with the field errors and leave the
table unchanged. -/
def districtCreate (it : DistrictInput) (now : Int) (db : DistrictDb) :
    BulkResp District × DistrictDb :=
  let errs := validateDistrictItem db.rows it
  if errs.isEmpty then
    let d := districtFromInput db.nextId now it
    (⟨201, none, none, [d]⟩, ⟨db.rows ++ [d], db.nextId + 1⟩)
  else
    (⟨400, none, some [errs], []⟩, db)

/-! ### Statistics actions (`pastors/views.py`, `districts/views.py`) -/

/-- `queryset.values(field).annotate(count=Count('id')).order_by('-count')`:
one `(value, count)` pair per distinct value of the grouping key, sorted by
descending count. -/
def groupCounts (keys : List String) : List (String × Nat) :=
  (keys.dedup.map (fun v => (v, keys.count v))).mergeSort (fun a b => decide (b.2 ≤ a.2))

/-- Payload of `PastorViewSet.statistics`. -/
structure PastorStats where
  total_pastors : Nat
  recent_pastors : Nat
  active_pastors : Nat
  retired_pastors : Nat
  pastors_by_rank : List (String × Nat)
  pastors_by_status : List (String × Nat)
  pastors_by_gender : List (String × Nat)
deriving DecidableEq, Repr

/-- `PastorViewSet.statistics` (`pastors/views.py` lines 102-145),
evaluated against the table state `rows` at clock `now`. -/
def pastorsStatistics (now : Int) (rows : List Pastor) : PastorStats :=
  let thirtyDaysAgo := now - 30 * 86400
  { total_pastors := rows.length
    recent_pastors := (rows.filter (fun p => decide (thirtyDaysAgo ≤ p.created_at))).length
    active_pastors := (rows.filter (fun p => p.status == "active")).length
    retired_pastors := (rows.filter (fun p => p.status == "retired")).length
    pastors_by_rank := groupCounts (rows.map (fun p => p.pastor_rank))
    pastors_by_status := groupCounts (rows.map (fun p => p.status))
    pastors_by_gender := groupCounts (rows.map (fun p => p.gender)) }

/-- Payload of `DistrictViewSet.statistics`. -/
structure DistrictStats where
  total_districts : Nat
  recent_districts : Nat
  oldest_district : Option String
  newest_district : Option String
deriving DecidableEq, Repr

/-- The oldest/newest names block of `DistrictViewSet.statistics`: guarded
by the truthiness of the `Min('created_at')` aggregate, fetch the rows
carrying either extreme timestamp ordered by `created_at`, and read the
first name as oldest and the last as newest. -/
def districtExtremes (rows : List District) : Option String × Option String :=
  match (rows.map (fun d => d.created_at)).min?, (rows.map (fun d => d.created_at)).max? with
  | some oc, some nc =>
    let ds := (rows.filter (fun d => d.created_at == oc || d.created_at == nc)).mergeSort
      (fun a b => decide (a.created_at ≤ b.created_at))
    match ds.head?, ds.getLast? with
    | some f, some l => (some f.name, some l.name)
    | _, _ => (none, none)
  | _, _ => (none, none)

/-- `DistrictViewSet.statistics` (`districts/views.py` lines 40-86):
one aggregate (`Count`, filtered `Count`, `Min`/`Max` of `created_at`),
plus the oldest/newest names block. -/
def districtsStatistics (now : Int) (rows : List District) : DistrictStats :=
  let thirtyDaysAgo := now - 30 * 86400
  { total_districts := rows.length
    recent_districts := (rows.filter (fun d => decide (thirtyDaysAgo ≤ d.created_at))).length
    oldest_district := (districtExtremes rows).1
    newest_district := (districtExtremes rows).2 }

/-- The unfiltered district `list` action: all rows in the default
ordering `['name']`. -/
def districtsList (rows : List District) : List District :=
  rows.mergeSort (fun a b => decide (a.name ≤ b.name))

/-! ### Cascade deletion (`on_delete=CASCADE` on the foreign keys) -/

/-- The full relational state used by the cascade claims. -/
structure OrgState where
  districts : List District
  sections : List Section
  churches : List Church
  churchRoles : List ChurchRole
  pastors : List Pastor
  churchPastors : List ChurchPastor
deriving DecidableEq, Repr

/-- `DELETE /api/districts/{did}/`: the district row goes away, and the
`CASCADE` declarations remove its sections (`Section.district`), their
churches (`Church.section`), and those churches' `ChurchPastor` rows. -/
def deleteDistrict (did : Nat) (s : OrgState) : OrgState :=
  let deadSections := (s.sections.filter (fun sec => sec.district == did)).map (fun sec => sec.id)
  let deadChurches :=
    (s.churches.filter (fun c => decide (c.section_fk ∈ deadSections))).map (fun c => c.id)
  { districts := s.districts.filter (fun d => d.id != did)
    sections := s.sections.filter (fun sec => sec.district != did)
    churches := s.churches.filter (fun c => !(decide (c.section_fk ∈ deadSections)))
    churchRoles := s.churchRoles
    pastors := s.pastors
    churchPastors := s.churchPastors.filter (fun cp => !(decide (cp.church ∈ deadChurches))) }

/-- `DELETE /api/pastors/{pid}/`: the pastor row goes away, and `CASCADE`
on `ChurchPastor.pastor` removes its assignment rows. -/
def deletePastor (pid : Nat) (s : OrgState) : OrgState :=
  { s with
    pastors := s.pastors.filter (fun p => p.id != pid)
    churchPastors := s.churchPastors.filter (fun cp => cp.pastor != pid) }

/-! ### Sections `by_district` action (`sections/views.py` lines 89-131) -/

/-- Python `int(s)` on a string: optional surrounding spaces, an optional
sign, then at least one decimal digit (digit-group underscores are not
modelled); any other shape raises `ValueError`. -/
def pythonInt (s : String) : Option Int :=
  let cs := s.data.dropWhile (fun c => c == ' ')
  let cs := (cs.reverse.dropWhile (fun c => c == ' ')).reverse
  let signDigits : Int × List Char :=
    match cs with
    | '+' :: rest => (1, rest)
    | '-' :: rest => (-1, rest)
    | rest => (1, rest)
  let sign := signDigits.1
  let digits := signDigits.2
  if digits.isEmpty || !digits.all Char.isDigit then none
  else some (sign * (digits.foldl (fun acc c => 10 * acc + (c.toNat - 48)) 0 : Nat))

/-- Response of `SectionViewSet.by_district`. -/
structure ByDistrictResp where
  status : Nat
  error : Option String
  district_id : Option Int
  count : Option Nat
  sections : List Section
deriving DecidableEq, Repr

/-- `SectionViewSet.by_district`: 400 when `district_id` is absent, 400
when it does not parse as an integer, 404 (naming the id) when no district
carries it, otherwise 200 with the district's sections (model default
ordering `['name']`) and their count.  The handler never mutates state,
so it returns the state unchanged. -/
def sectionsByDistrict (param : Option String) (st : OrgState) : ByDistrictResp × OrgState :=
  match param with
  | none => (⟨400, some "district_id query parameter is required", none, none, []⟩, st)
  | some s =>
    match pythonInt s with
    | none => (⟨400, some "district_id must be a valid integer", none, none, []⟩, st)
    | some did =>
      if st.districts.any (fun d => (d.id : Int) == did) then
        let secs := (st.sections.filter (fun sec => ((sec.district : Int) == did))).mergeSort
          (fun a b => decide (a.name ≤ b.name))
        (⟨200, none, some did, some secs.length, secs⟩, st)
      else
        (⟨404, some s!"District with id {did} does not exist", none, none, []⟩, st)

/-! ### Authentication gate on the pastors endpoints -/

/-- Modelled from the spec: the permission configuration of the pastors
viewset (the DRF `permission_classes` declaration / project settings
enforcing authentication) is not part of the source tree under review;
only its tests are.  Spec section 6: "the pastors endpoints require an
authenticated caller", and errors of taxonomy (d) are "reported as
unauthorized/forbidden".  DRF checks permissions before dispatching any
viewset action, so the gate is modelled uniformly over an arbitrary
action handler: an unauthenticated request is answered 403 before the
handler runs and leaves the state untouched. -/
def pastorsEndpoint (authenticated : Bool)
    (handler : PastorDb → BulkResp Pastor × PastorDb) (db : PastorDb) :
    BulkResp Pastor × PastorDb :=
  if authenticated then handler db
  else (⟨403, some "Authentication credentials were not provided.", none, []⟩, db)

/-- The `list` action as a handler for the authentication gate: 200 with
the serialized rows. -/
def pastorsListHandler (db : PastorDb) : BulkResp Pastor × PastorDb :=
  (⟨200, none, none, pastorsList db.rows⟩, db)

/-! ### Sample data used by witnesses and counterexamples -/

/-- A payload that passes `PastorSerializer` validation
(it is the first item of the repository test `test_bulk_create_success`). -/
def samplePastorInput : PastorInput :=
  { full_name := some "Test Pastor 1"
    gender := some "Male"
    pastor_rank := some "Pastor"
    date_of_birth := some ⟨1990, 1, 1⟩
    phone_number := some "+254711111111"
    status := some "active" }

/-- A stored pastor with primary key 7 and `date_of_birth` 1970-01-01. -/
def samplePastor : Pastor :=
  { id := 7
    full_name := "John Doe"
    gender := "Male"
    pastor_rank := "Bishop"
    national_id := some "12345678"
    date_of_birth := ⟨1970, 1, 1⟩
    phone_number := "+254712345678"
    start_of_service := none
    status := "active"
    created_at := 0 }

/-- A stored district with primary key 12. -/
def sampleDistrict : District :=
  { id := 12, name := "Nairobi", created_at := 0 }

/-- A small relational state: one district (id 1) with one section. -/
def sampleOrg : OrgState :=
  { districts := [⟨1, "Central", 0⟩]
    sections := [⟨1, 1, "Town", 0⟩]
    churches := []
    churchRoles := []
    pastors := []
    churchPastors := [] }

/-! ### Helper lemmas shared by the claim theorems -/

theorem assignPastorIds_length (now : Int) (start : Nat) (its : List PastorInput) :
    (assignPastorIds start now its).length = its.length := by
  induction its generalizing start with
  | nil => rfl
  | cons it rest ih => simp [assignPastorIds, ih]

theorem validate_samplePastorInput : validatePastorItem samplePastorInput = [] := by decide

theorem replicate_samplePastorInput_valid (n : Nat) :
    ((List.replicate n samplePastorInput).map validatePastorItem).all List.isEmpty = true := by
  induction n with
  | zero => rfl
  | succ k ih => simp [List.replicate_succ, validate_samplePastorInput, ih]

/-- Branch lemma: `pastors/bulk_create` when some item fails validation. -/
theorem pastorsBulkCreate_invalid (its : List PastorInput) (now : Int) (db : PastorDb)
    (h : ¬ (its.map validatePastorItem).all List.isEmpty = true) :
    pastorsBulkCreate (.items its) now db =
      (⟨400, none, some (its.map validatePastorItem), []⟩, db) := by
  have hne : its ≠ [] := by rintro rfl; simp at h
  simp only [pastorsBulkCreate]
  rw [if_neg (by simp [hne]), if_neg h]

/-- Branch lemma: `pastors/bulk_create` when every item validates. -/
theorem pastorsBulkCreate_valid (its : List PastorInput) (now : Int) (db : PastorDb)
    (hne : its ≠ []) (h : (its.map validatePastorItem).all List.isEmpty = true) :
    pastorsBulkCreate (.items its) now db =
      (⟨201, none, none, assignPastorIds db.nextId now its⟩,
       ⟨db.rows ++ assignPastorIds db.nextId now its, db.nextId + its.length⟩) := by
  simp only [pastorsBulkCreate]
  rw [if_neg (by simp [hne]), if_pos h]

theorem dedup_length_beq_iff_nodup {α : Type} [DecidableEq α] (l : List α) :
    (l.dedup.length == l.length) = true ↔ l.Nodup := by
  rw [beq_iff_eq]
  constructor
  · intro h
    have hs : l.dedup.Sublist l := List.dedup_sublist l
    have he : l.dedup = l := hs.eq_of_length h
    rw [← he]
    exact List.nodup_dedup l
  · intro h
    rw [List.dedup_eq_self.mpr h]

/-- Branch lemma: `districts/bulk_create` when some item fails validation
(within the batch-size bound). -/
theorem districtsBulkCreate_invalid (its : List DistrictInput) (now : Int) (db : DistrictDb)
    (hlen : its.length ≤ MAX_BULK_CREATE)
    (h : ¬ (its.map (validateDistrictItem db.rows)).all List.isEmpty = true) :
    districtsBulkCreate (.items its) now db =
      (⟨400, none, some (its.map (validateDistrictItem db.rows)), []⟩, db) := by
  have hne : its ≠ [] := by rintro rfl; simp at h
  simp only [districtsBulkCreate]
  rw [if_neg (by simp [hne]), if_neg (by simp; omega), if_neg h]

/-- Branch lemma: `districts/bulk_create` when every item validates and the
submitted names are pairwise distinct. -/
theorem districtsBulkCreate_valid (its : List DistrictInput) (now : Int) (db : DistrictDb)
    (hne : its ≠ []) (hlen : its.length ≤ MAX_BULK_CREATE)
    (h : (its.map (validateDistrictItem db.rows)).all List.isEmpty = true)
    (hnd : (its.map (fun it => it.name.getD "")).Nodup) :
    districtsBulkCreate (.items its) now db =
      (⟨201, none, none, assignDistrictIds db.nextId now its⟩,
       ⟨db.rows ++ assignDistrictIds db.nextId now its, db.nextId + its.length⟩) := by
  simp only [districtsBulkCreate]
  rw [if_neg (by simp [hne]), if_neg (by simp; omega), if_pos h,
      if_pos ((dedup_length_beq_iff_nodup _).mpr hnd)]

/-- Branch lemma: `districts/bulk_create` when every item validates but the
batch repeats a name — the insert hits the unique constraint, the
transaction rolls back, and the handler answers the duplicate message. -/
theorem districtsBulkCreate_integrity (its : List DistrictInput) (now : Int) (db : DistrictDb)
    (hlen : its.length ≤ MAX_BULK_CREATE)
    (h : (its.map (validateDistrictItem db.rows)).all List.isEmpty = true)
    (hnd : ¬ (its.map (fun it => it.name.getD "")).Nodup) :
    districtsBulkCreate (.items its) now db =
      (⟨400, some "Duplicate district name or database constraint violation", none, []⟩, db) := by
  have hne : its ≠ [] := by rintro rfl; exact hnd List.nodup_nil
  simp only [districtsBulkCreate]
  rw [if_neg (by simp [hne]), if_neg (by simp; omega), if_pos h,
      if_neg (fun hc => hnd ((dedup_length_beq_iff_nodup _).mp hc))]

/-! ### Claim theorems -/

/-- C1 (amended): on bulk_create every item is validated before any row is
persisted; if at least one item is invalid, zero rows are committed and the
response is a 400 carrying per-item validation messages; if all items are
valid — and, for districts, the batch repeats no name — all rows are
persisted atomically and the response is a 201 with the created
representations; an all-valid district batch that repeats a name hits the
unique constraint inside the transaction, rolls back fully (zero rows), and
answers a 400 conflict message. -/
theorem C1_bulk_create_all_or_nothing :
    ∀ (pits : List PastorInput) (dits : List DistrictInput) (now : Int)
      (pdb : PastorDb) (ddb : DistrictDb),
      (¬ (pits.map validatePastorItem).all List.isEmpty = true →
        pastorsBulkCreate (.items pits) now pdb =
          (⟨400, none, some (pits.map validatePastorItem), []⟩, pdb)) ∧
      (pits ≠ [] → (pits.map validatePastorItem).all List.isEmpty = true →
        pastorsBulkCreate (.items pits) now pdb =
          (⟨201, none, none, assignPastorIds pdb.nextId now pits⟩,
           ⟨pdb.rows ++ assignPastorIds pdb.nextId now pits, pdb.nextId + pits.length⟩)) ∧
      (dits.length ≤ MAX_BULK_CREATE →
        ¬ (dits.map (validateDistrictItem ddb.rows)).all List.isEmpty = true →
        districtsBulkCreate (.items dits) now ddb =
          (⟨400, none, some (dits.map (validateDistrictItem ddb.rows)), []⟩, ddb)) ∧
      (dits ≠ [] → dits.length ≤ MAX_BULK_CREATE →
        (dits.map (validateDistrictItem ddb.rows)).all List.isEmpty = true →
        (dits.map (fun it => it.name.getD "")).Nodup →
        districtsBulkCreate (.items dits) now ddb =
          (⟨201, none, none, assignDistrictIds ddb.nextId now dits⟩,
           ⟨ddb.rows ++ assignDistrictIds ddb.nextId now dits, ddb.nextId + dits.length⟩)) ∧
      (dits.length ≤ MAX_BULK_CREATE →
        (dits.map (validateDistrictItem ddb.rows)).all List.isEmpty = true →
        ¬ (dits.map (fun it => it.name.getD "")).Nodup →
        districtsBulkCreate (.items dits) now ddb =
          (⟨400, some "Duplicate district name or database constraint violation", none, []⟩,
           ddb)) := by
  intro pits dits now pdb ddb
  exact ⟨fun h => pastorsBulkCreate_invalid pits now pdb h,
         fun h1 h2 => pastorsBulkCreate_valid pits now pdb h1 h2,
         fun h1 h2 => districtsBulkCreate_invalid dits now ddb h1 h2,
         fun h1 h2 h3 h4 => districtsBulkCreate_valid dits now ddb h1 h2 h3 h4,
         fun h1 h2 h3 => districtsBulkCreate_integrity dits now ddb h1 h2 h3⟩

/-- C1 counterexample: against an empty table, the district batch
`[{"name": "Alpha"}, {"name": "Alpha"}]` has every item pass validation,
yet the response is 400 and zero rows are committed — refuting "if all
items are valid, all rows are persisted atomically and the response
returns the created representations with a creation status". -/
theorem C1_duplicate_batch_counterexample :
    ((([⟨some "Alpha"⟩, ⟨some "Alpha"⟩] : List DistrictInput).map
        (validateDistrictItem ([] : List District))).all List.isEmpty = true) ∧
    (districtsBulkCreate (.items [⟨some "Alpha"⟩, ⟨some "Alpha"⟩]) 0 ⟨[], 1⟩).1.status = 400 ∧
    (districtsBulkCreate (.items [⟨some "Alpha"⟩, ⟨some "Alpha"⟩]) 0 ⟨[], 1⟩).2 = ⟨[], 1⟩ :=
  ⟨by decide, by decide, by decide⟩

/-- C1 witness: a singleton valid pastor batch is created with status 201
and exactly one persisted row. -/
theorem C1_bulk_create_witness :
    (pastorsBulkCreate (.items [samplePastorInput]) 0 ⟨[], 1⟩).1.status = 201 ∧
    (pastorsBulkCreate (.items [samplePastorInput]) 0 ⟨[], 1⟩).2.rows.length = 1 := by
  have h := (C1_bulk_create_all_or_nothing [samplePastorInput] [] 0 ⟨[], 1⟩ ⟨[], 1⟩).2.1
    (by decide) (by decide)
  rw [h]
  exact ⟨rfl, rfl⟩

/-- C2 (code bug): `PastorViewSet.bulk_create` enforces no batch bound — a
batch of 1001 valid pastors is accepted with 201 and creates 1001 rows,
although the repository's own test expects a 400 naming the limit 1000 —
while `DistrictViewSet.bulk_create` does reject 11 items with the message
naming its limit 10 and the actual count, creating nothing. -/
theorem C2_pastors_bulk_limit_missing :
    (pastorsBulkCreate (.items (List.replicate 1001 samplePastorInput)) 0 ⟨[], 1⟩).1.status
      = 201 ∧
    (pastorsBulkCreate (.items (List.replicate 1001 samplePastorInput)) 0 ⟨[], 1⟩).2.rows.length
      = 1001 ∧
    (districtsBulkCreate (.items (List.replicate 11 (⟨some "Name"⟩ : DistrictInput))) 0
        ⟨[], 1⟩).1 =
      ⟨400, some "Cannot create more than 10 districts at once. Provided: 11", none, []⟩ ∧
    (districtsBulkCreate (.items (List.replicate 11 (⟨some "Name"⟩ : DistrictInput))) 0
        ⟨[], 1⟩).2 = ⟨[], 1⟩ := by
  have hne : (List.replicate 1001 samplePastorInput) ≠ [] := by
    intro hc
    have hl := congrArg List.length hc
    rw [List.length_replicate, List.length_nil] at hl
    exact absurd hl (by decide)
  have h := pastorsBulkCreate_valid (List.replicate 1001 samplePastorInput) 0 ⟨[], 1⟩ hne
    (replicate_samplePastorInput_valid 1001)
  rw [h]
  refine ⟨rfl, ?_, by decide, by decide⟩
  show ((⟨[], 1⟩ : PastorDb).rows ++
      assignPastorIds (⟨[], 1⟩ : PastorDb).nextId 0 (List.replicate 1001 samplePastorInput)).length
      = 1001
  rw [List.length_append, assignPastorIds_length, List.length_replicate]
  rfl

/-- C3: every pastors endpoint is guarded by the authentication gate
(modelled from the spec): an unauthenticated request — whatever the action
handler — is answered 403 with no state change, an authenticated request
reaches its handler, and an authenticated list request succeeds with 200. -/
theorem C3_pastors_authentication_gate :
    ∀ (handler : PastorDb → BulkResp Pastor × PastorDb) (db : PastorDb),
      (pastorsEndpoint false handler db).1.status = 403 ∧
      (pastorsEndpoint false handler db).2 = db ∧
      pastorsEndpoint true handler db = handler db ∧
      (pastorsEndpoint true pastorsListHandler db).1.status = 200 :=
  fun _ _ => ⟨rfl, rfl, rfl, rfl⟩

/-- C4: the summary action computes age as current year minus birth year,
reduced by one exactly when the current (month, day) pair is
lexicographically before the birth pair; a birth date 1970-01-01 evaluated
at the fixed clock 2024-06-01 gives 54; `years_of_service` is null when
`start_of_service` is absent. -/
theorem C4_summary_whole_year_arithmetic :
    (∀ (today : Date) (p : Pastor),
        (pastorSummary today p).age =
          today.year - p.date_of_birth.year -
            (if today.month < p.date_of_birth.month ∨
                (today.month = p.date_of_birth.month ∧ today.day < p.date_of_birth.day)
             then 1 else 0)) ∧
    (∀ p : Pastor, p.date_of_birth = ⟨1970, 1, 1⟩ →
        (pastorSummary ⟨2024, 6, 1⟩ p).age = 54) ∧
    (∀ (today : Date) (p : Pastor), p.start_of_service = none →
        (pastorSummary today p).years_of_service = none) := by
  refine ⟨?_, ?_, ?_⟩
  · intro today p
    have h : (mdBefore today p.date_of_birth = true) ↔
        (today.month < p.date_of_birth.month ∨
          (today.month = p.date_of_birth.month ∧ today.day < p.date_of_birth.day)) := by
      simp [mdBefore]
    simp only [pastorSummary, computeAge]
    rw [if_congr h rfl rfl]
  · intro p hp
    simp only [pastorSummary, computeAge, hp]
    decide
  · intro today p hp
    simp [pastorSummary, hp]

/-- C4 witness: the fixed-clock evaluation on a concrete pastor born
1970-01-01 with no `start_of_service`. -/
theorem C4_summary_witness :
    (pastorSummary ⟨2024, 6, 1⟩ samplePastor).age = 54 ∧
    (pastorSummary ⟨2024, 6, 1⟩ samplePastor).years_of_service = none :=
  ⟨C4_summary_whole_year_arithmetic.2.1 samplePastor rfl,
   C4_summary_whole_year_arithmetic.2.2 ⟨2024, 6, 1⟩ samplePastor rfl⟩

/-- C7: creating a district whose name is already stored fails with a
client error (400) and the district table — in particular its row count —
is exactly as before. -/
theorem C7_duplicate_district_name_conflict :
    ∀ (n : String) (now : Int) (db : DistrictDb),
      (∃ d ∈ db.rows, d.name = n) →
      (districtCreate ⟨some n⟩ now db).1.status = 400 ∧
      (districtCreate ⟨some n⟩ now db).2 = db := by
  intro n now db h
  have hany : db.rows.any (fun d => d.name == n) = true := by
    rw [List.any_eq_true]
    obtain ⟨d, hd, he⟩ := h
    exact ⟨d, hd, by simp [he]⟩
  have hval : validateDistrictItem db.rows ⟨some n⟩ ≠ [] := by
    simp only [validateDistrictItem]
    by_cases h1 : n.data.isEmpty = true
    · rw [if_pos h1]; simp
    · rw [if_neg h1]
      by_cases h2 : decide (100 < n.data.length) = true
      · rw [if_pos h2]; simp
      · rw [if_neg h2, if_pos hany]; simp
  simp only [districtCreate]
  rw [if_neg (by simp [hval])]
  exact ⟨rfl, rfl⟩

/-- C7 witness: with "Alpha" already stored, creating "Alpha" again answers
400 and leaves the table unchanged. -/
theorem C7_duplicate_district_witness :
    (districtCreate ⟨some "Alpha"⟩ 0 ⟨[⟨1, "Alpha", 0⟩], 2⟩).1.status = 400 ∧
    (districtCreate ⟨some "Alpha"⟩ 0 ⟨[⟨1, "Alpha", 0⟩], 2⟩).2 = ⟨[⟨1, "Alpha", 0⟩], 2⟩ :=
  C7_duplicate_district_name_conflict "Alpha" 0 ⟨[⟨1, "Alpha", 0⟩], 2⟩ (by decide)

/-- C8: `?status=active` returns exactly the rows whose status is
`active`, and `?status=active&gender=Male` returns exactly the rows
satisfying both predicates — the intersection, never the union. -/
theorem C8_filter_intersection :
    ∀ (rows : List Pastor) (p : Pastor),
      (p ∈ pastorsGetQueryset { status := some "active" } rows ↔
        p ∈ rows ∧ p.status = "active") ∧
      (p ∈ pastorsGetQueryset { status := some "active", gender := some "Male" } rows ↔
        p ∈ rows ∧ p.status = "active" ∧ p.gender = "Male") := by
  intro rows p
  constructor
  · simp [pastorsGetQueryset, applyOptFilter, List.mem_filter]
  · simp [pastorsGetQueryset, applyOptFilter, List.mem_filter]
    tauto

/-- C9: the display identifier is a pure function of the numeric primary
key (rows store no such field, so it is recomputed on read): equal keys
give equal identifiers, pastor key 7 yields "PAS007", district key 12
yields "DIS012". -/
theorem C9_display_id_from_pk :
    (∀ p q : Pastor, p.id = q.id → p.pastor_id = q.pastor_id) ∧
    (∀ d e : District, d.id = e.id → d.district_id = e.district_id) ∧
    (∀ p : Pastor, p.id = 7 → p.pastor_id = "PAS007") ∧
    (∀ d : District, d.id = 12 → d.district_id = "DIS012") := by
  refine ⟨?_, ?_, ?_, ?_⟩
  · intro p q h; simp [Pastor.pastor_id, h]
  · intro d e h; simp [District.district_id, h]
  · intro p h; simp only [Pastor.pastor_id, h]; decide
  · intro d h; simp only [District.district_id, h]; decide

/-- C9 witness: the concrete stored rows with keys 7 and 12. -/
theorem C9_display_id_witness :
    Pastor.pastor_id samplePastor = "PAS007" ∧
    District.district_id sampleDistrict = "DIS012" :=
  ⟨C9_display_id_from_pk.2.2.1 samplePastor rfl,
   C9_display_id_from_pk.2.2.2 sampleDistrict rfl⟩

theorem sum_snd_groupCounts (keys : List String) :
    ((groupCounts keys).map Prod.snd).sum = keys.length := by
  unfold groupCounts
  have hp := List.mergeSort_perm (keys.dedup.map (fun v => (v, keys.count v)))
      (fun a b => decide (b.2 ≤ a.2))
  rw [(hp.map Prod.snd).sum_eq, List.map_map]
  have hc : (Prod.snd ∘ fun v => (v, keys.count v)) = fun v => keys.count v := rfl
  rw [hc]
  exact List.sum_map_count_dedup_eq_length keys

/-- C5: the statistics totals equal the length of the unfiltered list
result on the same state, and every grouped breakdown (by rank, status,
gender) is computed on that same state, so its counts sum to the same
total. -/
theorem C5_statistics_consistency :
    ∀ (now : Int) (prows : List Pastor) (drows : List District),
      (pastorsStatistics now prows).total_pastors = (pastorsList prows).length ∧
      ((pastorsStatistics now prows).pastors_by_rank.map Prod.snd).sum =
        (pastorsStatistics now prows).total_pastors ∧
      ((pastorsStatistics now prows).pastors_by_status.map Prod.snd).sum =
        (pastorsStatistics now prows).total_pastors ∧
      ((pastorsStatistics now prows).pastors_by_gender.map Prod.snd).sum =
        (pastorsStatistics now prows).total_pastors ∧
      (districtsStatistics now drows).total_districts = (districtsList drows).length := by
  intro now prows drows
  refine ⟨?_, ?_, ?_, ?_, ?_⟩
  · show prows.length = (pastorsList prows).length
    rw [pastorsList, List.length_mergeSort]
    rfl
  · show ((groupCounts (prows.map (fun p => p.pastor_rank))).map Prod.snd).sum = prows.length
    rw [sum_snd_groupCounts, List.length_map]
  · show ((groupCounts (prows.map (fun p => p.status))).map Prod.snd).sum = prows.length
    rw [sum_snd_groupCounts, List.length_map]
  · show ((groupCounts (prows.map (fun p => p.gender))).map Prod.snd).sum = prows.length
    rw [sum_snd_groupCounts, List.length_map]
  · show drows.length = (districtsList drows).length
    rw [districtsList, List.length_mergeSort]

/-- C6: deleting a district removes exactly the district row, the sections
referencing it, the churches of those sections, and the assignment rows of
those churches, leaving pastors, roles and every unreachable row in place;
deleting a pastor removes exactly its assignment rows (and the pastor row),
leaving all other tables unchanged. -/
theorem C6_cascade_delete :
    ∀ (s : OrgState) (did pid : Nat),
      (∀ d : District, d ∈ (deleteDistrict did s).districts ↔ d ∈ s.districts ∧ d.id ≠ did) ∧
      (∀ sec : Section, sec ∈ (deleteDistrict did s).sections ↔
          sec ∈ s.sections ∧ sec.district ≠ did) ∧
      (∀ c : Church, c ∈ (deleteDistrict did s).churches ↔
          c ∈ s.churches ∧
            ¬ ∃ sec, sec ∈ s.sections ∧ sec.district = did ∧ sec.id = c.section_fk) ∧
      (∀ cp : ChurchPastor, cp ∈ (deleteDistrict did s).churchPastors ↔
          cp ∈ s.churchPastors ∧
            ¬ ∃ c, c ∈ s.churches ∧
                (∃ sec, sec ∈ s.sections ∧ sec.district = did ∧ sec.id = c.section_fk) ∧
                c.id = cp.church) ∧
      (deleteDistrict did s).pastors = s.pastors ∧
      (deleteDistrict did s).churchRoles = s.churchRoles ∧
      (∀ p : Pastor, p ∈ (deletePastor pid s).pastors ↔ p ∈ s.pastors ∧ p.id ≠ pid) ∧
      (∀ cp : ChurchPastor, cp ∈ (deletePastor pid s).churchPastors ↔
          cp ∈ s.churchPastors ∧ cp.pastor ≠ pid) ∧
      (deletePastor pid s).districts = s.districts ∧
      (deletePastor pid s).sections = s.sections ∧
      (deletePastor pid s).churches = s.churches ∧
      (deletePastor pid s).churchRoles = s.churchRoles := by
  intro s did pid
  refine ⟨?_, ?_, ?_, ?_, rfl, rfl, ?_, ?_, rfl, rfl, rfl, rfl⟩
  · intro d
    simp [deleteDistrict, List.mem_filter]
  · intro sec
    simp [deleteDistrict, List.mem_filter]
  · intro c
    simp [deleteDistrict, List.mem_filter, List.mem_map]
  · intro cp
    simp [deleteDistrict, List.mem_filter, List.mem_map]
  · intro p
    simp [deletePastor, List.mem_filter]
  · intro cp
    simp [deletePastor, List.mem_filter]

/-- C10: `sections/by_district` answers 400 when `district_id` is absent,
400 when it does not parse as an integer, 404 naming the id when no
district carries it, and otherwise 200 with `count` equal to the number
of sections returned — and in every case the stored data is unchanged. -/
theorem C10_by_district_behavior :
    ∀ (st : OrgState) (param : Option String),
      (sectionsByDistrict param st).2 = st ∧
      (param = none → (sectionsByDistrict param st).1.status = 400) ∧
      (∀ q, param = some q → pythonInt q = none →
        (sectionsByDistrict param st).1.status = 400) ∧
      (∀ q did, param = some q → pythonInt q = some did →
        (¬ ∃ d ∈ st.districts, (d.id : Int) = did) →
        (sectionsByDistrict param st).1.status = 404 ∧
        (sectionsByDistrict param st).1.error =
          some s!"District with id {did} does not exist") ∧
      (∀ q did, param = some q → pythonInt q = some did →
        (∃ d ∈ st.districts, (d.id : Int) = did) →
        (sectionsByDistrict param st).1.status = 200 ∧
        (sectionsByDistrict param st).1.count =
          some ((sectionsByDistrict param st).1.sections).length) := by
  intro st param
  refine ⟨?_, ?_, ?_, ?_, ?_⟩
  · cases param with
    | none => rfl
    | some q =>
      cases hq : pythonInt q with
      | none => simp only [sectionsByDistrict, hq]
      | some did =>
        simp only [sectionsByDistrict, hq]
        by_cases hex : st.districts.any (fun d => ((d.id : Int) == did)) = true
        · rw [if_pos hex]
        · rw [if_neg hex]
  · rintro rfl
    rfl
  · rintro q rfl hq
    simp only [sectionsByDistrict, hq]
  · rintro q did rfl hq hnex
    have hany : ¬ (st.districts.any (fun d => ((d.id : Int) == did)) = true) := by
      simpa [List.any_eq_true] using hnex
    simp only [sectionsByDistrict, hq]
    rw [if_neg hany]
    exact ⟨rfl, rfl⟩
  · rintro q did rfl hq hex
    have hany : st.districts.any (fun d => ((d.id : Int) == did)) = true := by
      simpa [List.any_eq_true] using hex
    simp only [sectionsByDistrict, hq]
    rw [if_pos hany]
    exact ⟨rfl, rfl⟩

/-- C10 witness: on the sample state, `?district_id=1` answers 200 with a
count matching the returned sections. -/
theorem C10_by_district_witness :
    (sectionsByDistrict (some "1") sampleOrg).1.status = 200 ∧
    (sectionsByDistrict (some "1") sampleOrg).1.count =
      some ((sectionsByDistrict (some "1") sampleOrg).1.sections).length :=
  (C10_by_district_behavior sampleOrg (some "1")).2.2.2.2 "1" 1 rfl (by decide) (by decide)

/-- C3 witness: a concrete unauthenticated list request is answered 403
and leaves the concrete database unchanged. -/
theorem C3_authentication_witness :
    (pastorsEndpoint false pastorsListHandler ⟨[], 1⟩).1.status = 403 ∧
    (pastorsEndpoint false pastorsListHandler ⟨[], 1⟩).2 = ⟨[], 1⟩ :=
  ⟨(C3_pastors_authentication_gate pastorsListHandler ⟨[], 1⟩).1,
   (C3_pastors_authentication_gate pastorsListHandler ⟨[], 1⟩).2.1⟩

/-- C5 witness: on a concrete one-row state, the statistics total equals
the list length and the rank breakdown sums to it. -/
theorem C5_statistics_witness :
    (pastorsStatistics 0 [samplePastor]).total_pastors = (pastorsList [samplePastor]).length ∧
    ((pastorsStatistics 0 [samplePastor]).pastors_by_rank.map Prod.snd).sum =
      (pastorsStatistics 0 [samplePastor]).total_pastors :=
  ⟨(C5_statistics_consistency 0 [samplePastor] []).1,
   (C5_statistics_consistency 0 [samplePastor] []).2.1⟩

/-- C6 witness: in the sample state, deleting district 1 removes its
section. -/
theorem C6_cascade_witness :
    ¬ (⟨1, 1, "Town", 0⟩ : Section) ∈ (deleteDistrict 1 sampleOrg).sections := by
  intro hmem
  have h := ((C6_cascade_delete sampleOrg 1 0).2.1 ⟨1, 1, "Town", 0⟩).mp hmem
  exact h.2 rfl

/-- C8 witness: a concrete active male pastor is in the doubly-filtered
queryset of the singleton table. -/
theorem C8_filter_witness :
    samplePastor ∈ pastorsGetQueryset { status := some "active", gender := some "Male" }
      [samplePastor] :=
  ((C8_filter_intersection [samplePastor] samplePastor).2).mpr ⟨by simp, rfl, rfl⟩
